import Mathlib

/-!
Verification of the quota-tracking / rate-limiting subsystem and the
dataset-refresh merge protocol of the stopscraping API (src/main.py),
as a shallow embedding in Lean.

Conventions of the embedding:
* Machine time is UTC seconds since the epoch (a Nat); a calendar day is
  seconds / 86400, and the next UTC midnight after t is (t / 86400 + 1) * 86400.
* The Supabase table api_usage is a list of rows; selects filter it in order,
  insert appends a row with a caller-supplied fresh id, update maps over rows
  by id.  Each persistence operation may raise; whether it does is given by a
  DBBehavior oracle, and the Python try/except around the whole body is the
  early return taken when an operation raises.
* float('inf') appears in the source only as an admission limit and inside
  max(0, limit - used); both uses are exact, so the limit is embedded as an
  inductive Limit (finite Nat / infinite) with the corresponding exact
  comparison and subtraction.
* The upstream fetch of /update-ips is an oracle from agent name to outcome:
  an HTTP status error, a JSON decode error, some other raised error (each
  carrying the exception text), or a successfully parsed body from which the
  list of ipv4 range strings was extracted.  The JSON file block_ips.json is
  embedded as its inner agent-to-list association list (the fixed top-level
  "openai" key is dropped), and Python dict assignment is update-or-append.
-/

namespace StopScraping

/-- A row of the api_usage table: id, user_id, date (as a UTC day number),
and the request count. -/
structure UsageRow where
  id : Nat
  user_id : String
  date : Nat
  count : Nat
deriving Repr, DecidableEq

/-- Which persistence operations raise during one call of
check_and_update_api_usage. -/
structure DBBehavior where
  selectFails : Bool
  insertFails : Bool
  updateFails : Bool
deriving Repr, DecidableEq

/-- The behavior in which every persistence operation succeeds. -/
def DBBehavior.ok : DBBehavior := ⟨false, false, false⟩

/-- supabase.table("api_usage").select("*").eq("user_id", u).eq("date", d):
the rows matching both filters, in table order. -/
def selectUsage (db : List UsageRow) (u : String) (d : Nat) : List UsageRow :=
  db.filter (fun r => r.user_id == u && r.date == d)

/-- A daily request limit: finite (free, basic) or float('inf') (any other
tier). -/
inductive Limit where
  | fin (n : Nat) : Limit
  | infinite : Limit
deriving Repr, DecidableEq

/-- Python tier.lower(): character-wise lower-casing.  Tier strings are
ASCII, on which this agrees with both str.lower() and String.toLower; it is
written over the character list so the kernel can evaluate it. -/
def lower (s : String) : String := ⟨s.data.map Char.toLower⟩

/-- limit = 10 if tier.lower() == "free" else 100 if tier.lower() == "basic"
else float('inf')  (src/main.py:275 and 323). -/
def tierLimit (tier : String) : Limit :=
  if lower tier == "free" then .fin 10
  else if lower tier == "basic" then .fin 100
  else .infinite

/-- The test new_count > limit; n > float('inf') is always False. -/
def gtLimit (n : Nat) : Limit → Bool
  | .fin m => decide (m < n)
  | .infinite => false

/-- The UTC day of an epoch-seconds instant (datetime.utcnow().date()). -/
def dateOfNow (now : Nat) : Nat := now / 86400

/-- datetime.combine(today, time(0, 0)) + timedelta(days=1): the next UTC
midnight after now, in epoch seconds. -/
def nextUtcMidnight (now : Nat) : Nat := (now / 86400 + 1) * 86400

/-- check_and_update_api_usage (src/main.py:260-284).  Returns the
(allowed, reset_time) pair of the Python function together with the
api_usage table after the call.  fid is the id the insert would assign to a
freshly created row.  A raising persistence operation takes the except
branch: return True, reset_time. -/
def check_and_update_api_usage (beh : DBBehavior) (fid : Nat)
    (db : List UsageRow) (user_id tier : String) (now : Nat) :
    (Bool × Nat) × List UsageRow :=
  let today := dateOfNow now
  let reset_time := nextUtcMidnight now
  if beh.selectFails then ((true, reset_time), db)
  else
    match selectUsage db user_id today with
    | [] =>
      if beh.insertFails then ((true, reset_time), db)
      else ((true, reset_time), db ++ [⟨fid, user_id, today, 1⟩])
    | usage :: _ =>
      let new_count := usage.count + 1
      let limit := tierLimit tier
      if gtLimit new_count limit then ((false, reset_time), db)
      else if beh.updateFails then ((true, reset_time), db)
      else ((true, reset_time),
        db.map (fun r => if r.id == usage.id then { r with count := new_count } else r))

/-- Whether some persistence operation actually raises during
check_and_update_api_usage with behavior beh on table db: the select, the
insert (reached only when no row exists), or the update (reached only on the
admit-with-existing-row path). -/
def persistenceRaises (beh : DBBehavior) (db : List UsageRow)
    (user_id tier : String) (now : Nat) : Bool :=
  beh.selectFails ||
    match selectUsage db user_id (dateOfNow now) with
    | [] => beh.insertFails
    | usage :: _ => !gtLimit (usage.count + 1) (tierLimit tier) && beh.updateFails

/-- The stored count for (user, day): the count of the first matching row,
0 when no row exists. -/
def usageCount (db : List UsageRow) (u : String) (d : Nat) : Nat :=
  match selectUsage db u d with
  | [] => 0
  | r :: _ => r.count

/-- format_time_until_reset (src/main.py:85-93). -/
def format_time_until_reset (seconds : Nat) : String :=
  let hours := seconds / 3600
  let remainder := seconds % 3600
  let minutes := remainder / 60
  let secs := remainder % 60
  if hours > 0 then toString hours ++ " hours, " ++ toString minutes ++ " minutes"
  else if minutes > 0 then toString minutes ++ " minutes, " ++ toString secs ++ " seconds"
  else toString secs ++ " seconds"

/-- The countdown format as the spec words it: s ≥ 1 hour gives
"H hours, M minutes"; 1 minute ≤ s < 1 hour gives "M minutes, S seconds";
s < 1 minute gives "S seconds". -/
def format_reset_countdown_spec (s : Nat) : String :=
  if 3600 ≤ s then toString (s / 3600) ++ " hours, " ++ toString (s % 3600 / 60) ++ " minutes"
  else if 60 ≤ s then toString (s / 60) ++ " minutes, " ++ toString (s % 60) ++ " seconds"
  else toString s ++ " seconds"

/-- The outcome of fetching one agent's upstream URL inside update_ips:
the three caught exception families of src/main.py:230-238, each with the
exception's text, or a successfully parsed body from which
[p['ipv4Prefix'] for p in data.get('prefixes', [])] was extracted. -/
inductive FetchOutcome where
  | httpStatusError (msg : String) : FetchOutcome
  | jsonDecodeError (msg : String) : FetchOutcome
  | unexpectedError (msg : String) : FetchOutcome
  | success (ipList : List String) : FetchOutcome
deriving Repr, DecidableEq

/-- Whether the fetch succeeded with a non-empty extracted list — the only
case in which the source replaces the agent's entry and sets updated. -/
def successNonempty : FetchOutcome → Bool
  | .success ipList => !ipList.isEmpty
  | _ => false

/-- The list the fetch extracted (empty for errors). -/
def ipListOf : FetchOutcome → List String
  | .success ipList => ipList
  | _ => []

/-- The agent-to-range-list mapping (the value of the fixed "openai" key of
block_ips.json), as an association list in insertion order. -/
abbrev Dataset := List (String × List String)

/-- Python dict indexing d[k]: the value at the first matching key. -/
def lookupEntry : Dataset → String → Option (List String)
  | [], _ => none
  | (k, v) :: rest, a => if k == a then some v else lookupEntry rest a

/-- Python dict assignment d[k] = v: replace the value at an existing key in
place, or append a new binding. -/
def setEntry : Dataset → String → List String → Dataset
  | [], k, v => [(k, v)]
  | (k', v') :: rest, k, v =>
      if k' == k then (k', v) :: rest else (k', v') :: setEntry rest k v

/-- The mutable loop state of update_ips: current_data["openai"], the
updated flag, and the errors list. -/
structure UpdateState where
  current : Dataset
  updated : Bool
  errors : List String
deriving Repr, DecidableEq

/-- The body of the per-agent loop of update_ips (src/main.py:213-238) for
one agent, given that agent's fetch outcome. -/
def processAgent (fetch : String → FetchOutcome) (st : UpdateState)
    (bot_type : String) : UpdateState :=
  match fetch bot_type with
  | .success ipList =>
    if !ipList.isEmpty then
      { st with current := setEntry st.current bot_type ipList, updated := true }
    else
      { st with errors := st.errors ++ ["No IP data found for " ++ bot_type] }
  | .httpStatusError m =>
      { st with errors := st.errors ++ ["HTTP error occurred for " ++ bot_type ++ ": " ++ m] }
  | .jsonDecodeError m =>
      { st with errors := st.errors ++ ["JSON decode error for " ++ bot_type ++ ": " ++ m] }
  | .unexpectedError m =>
      { st with errors := st.errors ++ ["Unexpected error occurred for " ++ bot_type ++ ": " ++ m] }

/-- The warning string the loop appends for one agent, if any: none exactly
when the fetch succeeded with a non-empty list. -/
def agentWarning (fetch : String → FetchOutcome) (bot_type : String) : Option String :=
  match fetch bot_type with
  | .success ipList =>
    if !ipList.isEmpty then none
    else some ("No IP data found for " ++ bot_type)
  | .httpStatusError m => some ("HTTP error occurred for " ++ bot_type ++ ": " ++ m)
  | .jsonDecodeError m => some ("JSON decode error for " ++ bot_type ++ ": " ++ m)
  | .unexpectedError m => some ("Unexpected error occurred for " ++ bot_type ++ ": " ++ m)

/-- The whole per-agent loop of update_ips, started from the dataset read
from block_ips.json, updated = False and errors = []. -/
def runAgents (fetch : String → FetchOutcome) (agents : List String)
    (file : Dataset) : UpdateState :=
  agents.foldl (processAgent fetch) ⟨file, false, []⟩

/-- The 503 detail string built at src/main.py:249-251. -/
def errorDetail (errors : List String) : String :=
  "Failed to retrieve any valid IP data. " ++
    (if errors.isEmpty then ""
     else "\n\nErrors encountered: " ++ String.intercalate "; " errors)

/-- The HTTP-level result of update_ips: the 200 body on (partial) success,
or the 503 HTTPException. -/
inductive UpdateResponse where
  | ok (message : String) (data : Dataset) (warnings : Option (List String)) : UpdateResponse
  | httpError503 (detail : String) : UpdateResponse
deriving Repr, DecidableEq

/-- Whether an update_ips response is the 503 failure. -/
def UpdateResponse.isFailure : UpdateResponse → Bool
  | .httpError503 _ => true
  | .ok _ _ _ => false

/-- update_ips after the update-key check (src/main.py:202-253): runs the
per-agent loop over the configured agents against the dataset read from
durable storage, and either persists the merged dataset and returns the 200
body, or raises 503 and leaves the file alone.  Returns the response, the
durable dataset after the call, and how many times write_ip_data ran. -/
def update_ips (fetch : String → FetchOutcome) (agents : List String)
    (file : Dataset) : UpdateResponse × Dataset × Nat :=
  let st := runAgents fetch agents file
  if st.updated then
    (.ok "IP data update completed with partial success" st.current
        (if st.errors.isEmpty then none else some st.errors),
      st.current, 1)
  else
    (.httpError503 (errorDetail st.errors), file, 0)

/-- The HTTP-level result of get_bot_ips: the 200 body or the 404. -/
inductive BotIpsResponse where
  | ok (body : Dataset) : BotIpsResponse
  | notFound404 : BotIpsResponse
deriving Repr, DecidableEq

/-- get_bot_ips (src/main.py:172-179): if bot_type in data["openai"] return
the singleton mapping, else raise 404. -/
def get_bot_ips (data : Dataset) (bot_type : String) : BotIpsResponse :=
  match lookupEntry data bot_type with
  | some v => .ok [(bot_type, v)]
  | none => .notFound404

/-- remaining_requests = max(0, limit - used_requests): exact even when the
limit is float('inf'). -/
inductive Remaining where
  | fin (n : Int) : Remaining
  | unbounded : Remaining
deriving Repr, DecidableEq

/-- max(0, limit - used_requests) with limit possibly float('inf'). -/
def remainingOf (limit : Limit) (used : Nat) : Remaining :=
  match limit with
  | .fin m => .fin (max 0 ((m : Int) - (used : Int)))
  | .infinite => .unbounded

/-- The 200 body of /api-usage. -/
structure ApiUsage where
  tier : String
  used_requests : Nat
  remaining_requests : Remaining
  reset_in_seconds : Nat
  reset_time : Nat
deriving Repr, DecidableEq

/-- get_api_usage (src/main.py:306-333), success path: read today's row,
compute the limit from the tier and report usage, remaining and reset. -/
def get_api_usage (db : List UsageRow) (user_id tier : String) (now : Nat) :
    ApiUsage :=
  let today := dateOfNow now
  let reset_time := nextUtcMidnight now
  let used_requests :=
    match selectUsage db user_id today with
    | [] => 0
    | r :: _ => r.count
  let limit := tierLimit tier
  { tier := tier
    used_requests := used_requests
    remaining_requests := remainingOf limit used_requests
    reset_in_seconds := reset_time - now
    reset_time := reset_time }

/-- The read half of check_and_update_api_usage: the select of today's rows.
In the deployed system this is a round trip to a remote database; a
concurrent caller (another worker process sharing the database) can run
between this select and the commit below. -/
def readPhase (db : List UsageRow) (user_id : String) (now : Nat) :
    List UsageRow :=
  selectUsage db user_id (dateOfNow now)

/-- The write half of check_and_update_api_usage: decide and commit against
the rows the select returned, applying the insert or update to the table as
it is NOW (which may have changed since the select). -/
def commitPhase (rowsRead : List UsageRow) (fid : Nat) (db : List UsageRow)
    (user_id tier : String) (now : Nat) : (Bool × Nat) × List UsageRow :=
  let today := dateOfNow now
  let reset_time := nextUtcMidnight now
  match rowsRead with
  | [] => ((true, reset_time), db ++ [⟨fid, user_id, today, 1⟩])
  | usage :: _ =>
    let new_count := usage.count + 1
    if gtLimit new_count (tierLimit tier) then ((false, reset_time), db)
    else ((true, reset_time),
      db.map (fun r => if r.id == usage.id then { r with count := new_count } else r))

/-- With no persistence failures, check_and_update_api_usage is exactly its
read phase followed immediately (atomically) by its commit phase. -/
theorem check_eq_read_then_commit (fid : Nat) (db : List UsageRow)
    (user_id tier : String) (now : Nat) :
    check_and_update_api_usage DBBehavior.ok fid db user_id tier now =
      commitPhase (readPhase db user_id now) fid db user_id tier now := by
  simp only [check_and_update_api_usage, commitPhase, readPhase, DBBehavior.ok]
  cases selectUsage db user_id (dateOfNow now) with
  | nil => rfl
  | cons usage rest => by_cases h : gtLimit (usage.count + 1) (tierLimit tier) <;> simp [h]

/-- Filtering commutes with a map that does not change the tested fields. -/
theorem filter_map_of_pred_inv {α : Type} (f : α → α) (p : α → Bool)
    (l : List α) (h : ∀ a, p (f a) = p a) :
    (l.map f).filter p = (l.filter p).map f := by
  induction l with
  | nil => rfl
  | cons a t ih =>
    simp only [List.map_cons, List.filter_cons, h a]
    cases p a <;> simp [ih]

/-- selectUsage after the update map of check_and_update_api_usage. -/
theorem selectUsage_map_update (db : List UsageRow) (u : String) (d : Nat)
    (i c : Nat) :
    selectUsage (db.map (fun r => if r.id == i then { r with count := c } else r)) u d =
      (selectUsage db u d).map (fun r => if r.id == i then { r with count := c } else r) := by
  apply filter_map_of_pred_inv
  intro a
  by_cases h : a.id == i <;> simp [h]

/-- selectUsage distributes over append. -/
theorem selectUsage_append (db₁ db₂ : List UsageRow) (u : String) (d : Nat) :
    selectUsage (db₁ ++ db₂) u d = selectUsage db₁ u d ++ selectUsage db₂ u d := by
  simp [selectUsage, List.filter_append]

/-- Assigning a key makes lookup at that key return the assigned value. -/
theorem lookupEntry_setEntry_self (m : Dataset) (k : String) (v : List String) :
    lookupEntry (setEntry m k v) k = some v := by
  induction m with
  | nil => simp [setEntry, lookupEntry]
  | cons p rest ih =>
    obtain ⟨k', v'⟩ := p
    by_cases h : k' == k
    · simp [setEntry, lookupEntry, h]
    · simp [setEntry, lookupEntry, h, ih]

/-- Assigning one key leaves lookup at any other key unchanged. -/
theorem lookupEntry_setEntry_ne (m : Dataset) (k a : String)
    (v : List String) (h : k ≠ a) :
    lookupEntry (setEntry m k v) a = lookupEntry m a := by
  induction m with
  | nil => simp [setEntry, lookupEntry, h]
  | cons p rest ih =>
    obtain ⟨k', v'⟩ := p
    by_cases hk : k' == k
    · have : k' ≠ a := by
        intro hc
        exact h ((eq_of_beq hk).symm.trans hc)
      simp [setEntry, lookupEntry, hk, this]
    · by_cases ha : k' == a <;> simp [setEntry, lookupEntry, hk, ha, ih]

/-- Lookup misses exactly when the key is absent from the key set. -/
theorem lookupEntry_eq_none_iff (m : Dataset) (a : String) :
    lookupEntry m a = none ↔ a ∉ m.map Prod.fst := by
  induction m with
  | nil => simp [lookupEntry]
  | cons p rest ih =>
    obtain ⟨k, v⟩ := p
    by_cases h : k == a
    · simp [lookupEntry, h, eq_of_beq h]
    · have : ¬ a = k := fun hc => h (by simp [hc])
      simp [lookupEntry, h, ih, this]

/-- One loop iteration appends exactly the agent's warning, if any. -/
theorem processAgent_errors (fetch : String → FetchOutcome)
    (st : UpdateState) (b : String) :
    (processAgent fetch st b).errors = st.errors ++ (agentWarning fetch b).toList := by
  unfold processAgent agentWarning
  cases fetch b with
  | success ipList => cases ipList <;> simp
  | httpStatusError m => simp
  | jsonDecodeError m => simp
  | unexpectedError m => simp

/-- The loop's errors list is the concatenation, in agent order, of the
per-agent warnings. -/
theorem foldl_processAgent_errors (fetch : String → FetchOutcome) :
    ∀ (agents : List String) (st : UpdateState),
    (agents.foldl (processAgent fetch) st).errors =
      st.errors ++ agents.filterMap (agentWarning fetch) := by
  intro agents
  induction agents with
  | nil => simp
  | cons b t ih =>
    intro st
    simp only [List.foldl_cons, List.filterMap_cons]
    rw [ih, processAgent_errors]
    cases agentWarning fetch b <;> simp

/-- The loop's updated flag is true iff it started true or some agent's
fetch succeeded with a non-empty list. -/
theorem foldl_processAgent_updated (fetch : String → FetchOutcome) :
    ∀ (agents : List String) (st : UpdateState),
    (agents.foldl (processAgent fetch) st).updated =
      (st.updated || agents.any (fun a => successNonempty (fetch a))) := by
  intro agents
  induction agents with
  | nil => simp
  | cons b t ih =>
    intro st
    simp only [List.foldl_cons, List.any_cons]
    rw [ih]
    have hstep : (processAgent fetch st b).updated =
        (st.updated || successNonempty (fetch b)) := by
      unfold processAgent successNonempty
      cases fetch b with
      | success ipList => cases ipList <;> simp
      | httpStatusError m => simp
      | jsonDecodeError m => simp
      | unexpectedError m => simp
    rw [hstep, Bool.or_assoc]

/-- One loop iteration leaves every other agent's entry alone, and also the
processed agent's entry when its fetch errored or came back empty. -/
theorem processAgent_current_lookup (fetch : String → FetchOutcome)
    (st : UpdateState) (b a : String)
    (h : b ≠ a ∨ successNonempty (fetch b) = false) :
    lookupEntry (processAgent fetch st b).current a = lookupEntry st.current a := by
  unfold processAgent
  cases hf : fetch b with
  | success ipList =>
    cases ipList with
    | nil => simp
    | cons x xs =>
      have hb : b ≠ a := by
        rcases h with h | h
        · exact h
        · simp [successNonempty, hf] at h
      simp [lookupEntry_setEntry_ne _ _ _ _ hb]
  | httpStatusError m => simp
  | jsonDecodeError m => simp
  | unexpectedError m => simp

/-- An agent whose fetch errored or came back empty keeps its pre-loop
entry. -/
theorem foldl_processAgent_current_bad (fetch : String → FetchOutcome)
    (a : String) (hbad : successNonempty (fetch a) = false) :
    ∀ (agents : List String) (st : UpdateState),
    lookupEntry (agents.foldl (processAgent fetch) st).current a =
      lookupEntry st.current a := by
  intro agents
  induction agents with
  | nil => simp
  | cons b t ih =>
    intro st
    simp only [List.foldl_cons]
    rw [ih]
    apply processAgent_current_lookup
    by_cases hb : b = a
    · exact Or.inr (hb ▸ hbad)
    · exact Or.inl hb

/-- An agent the loop never processes keeps its pre-loop entry. -/
theorem foldl_processAgent_current_notmem (fetch : String → FetchOutcome)
    (a : String) :
    ∀ (agents : List String) (st : UpdateState), a ∉ agents →
    lookupEntry (agents.foldl (processAgent fetch) st).current a =
      lookupEntry st.current a := by
  intro agents
  induction agents with
  | nil => simp
  | cons b t ih =>
    intro st hmem
    simp only [List.foldl_cons]
    rw [ih _ (fun hc => hmem (List.mem_cons_of_mem _ hc))]
    exact processAgent_current_lookup _ _ _ _
      (Or.inl (fun hc => hmem (hc ▸ List.mem_cons_self _ _)))

/-- A processed agent whose fetch succeeded non-empty ends with exactly the
fetched list. -/
theorem foldl_processAgent_current_good (fetch : String → FetchOutcome)
    (a : String) (hgood : successNonempty (fetch a) = true) :
    ∀ (agents : List String) (st : UpdateState), a ∈ agents →
    lookupEntry (agents.foldl (processAgent fetch) st).current a =
      some (ipListOf (fetch a)) := by
  intro agents
  induction agents with
  | nil => intro st h; cases h
  | cons b t ih =>
    intro st hmem
    simp only [List.foldl_cons]
    by_cases ht : a ∈ t
    · exact ih _ ht
    · have hb : b = a := by
        rcases List.mem_cons.mp hmem with h | h
        · exact h.symm
        · exact absurd h ht
      rw [foldl_processAgent_current_notmem fetch a t _ ht]
      subst hb
      unfold processAgent
      cases hf : fetch b with
      | success ipList =>
        cases ipList with
        | nil => rw [hf] at hgood; simp [successNonempty] at hgood
        | cons x xs => simp [lookupEntry_setEntry_self, ipListOf, hf]
      | httpStatusError m => rw [hf] at hgood; simp [successNonempty] at hgood
      | jsonDecodeError m => rw [hf] at hgood; simp [successNonempty] at hgood
      | unexpectedError m => rw [hf] at hgood; simp [successNonempty] at hgood

/-- Claim C1: for every account and every tier with a finite limit, when a
usage row for (account, today) exists and its stored count already equals
the tier limit, check_and_update_api_usage returns admitted = false and
performs no write: the table is unchanged by the denied call. -/
theorem quota_denied_at_limit_no_write (db : List UsageRow)
    (user tier : String) (now fid L : Nat) (r : UsageRow)
    (rest : List UsageRow) (hlim : tierLimit tier = .fin L)
    (hsel : selectUsage db user (dateOfNow now) = r :: rest)
    (hcount : r.count = L) :
    check_and_update_api_usage DBBehavior.ok fid db user tier now =
      ((false, nextUtcMidnight now), db) := by
  simp [check_and_update_api_usage, DBBehavior.ok, hsel, hlim, hcount, gtLimit]

/-- Witness for C1: a free-tier account whose stored count is already 10 is
denied and the table is left exactly as it was. -/
theorem quota_denied_at_limit_no_write_witness :
    check_and_update_api_usage DBBehavior.ok 2 [⟨1, "u", 0, 10⟩] "u" "free" 0 =
      ((false, 86400), [⟨1, "u", 0, 10⟩]) :=
  quota_denied_at_limit_no_write [⟨1, "u", 0, 10⟩] "u" "free" 0 2 10
    ⟨1, "u", 0, 10⟩ [] (by decide) (by decide) rfl

/-- Claim C2: if any persistence operation that check_and_update_api_usage
actually performs raises, the function fails open, returning
admitted = true together with the next UTC midnight. -/
theorem quota_fails_open_on_persistence_error (beh : DBBehavior) (fid : Nat)
    (db : List UsageRow) (user tier : String) (now : Nat)
    (h : persistenceRaises beh db user tier now = true) :
    (check_and_update_api_usage beh fid db user tier now).1 =
      (true, nextUtcMidnight now) := by
  unfold persistenceRaises at h
  unfold check_and_update_api_usage
  cases hb : beh.selectFails with
  | true => simp [hb]
  | false =>
    rw [hb] at h
    simp only [Bool.false_or] at h
    cases hsel : selectUsage db user (dateOfNow now) with
    | nil =>
      simp only [hsel]
      cases beh.insertFails <;> simp
    | cons usage rest =>
      rw [hsel] at h
      simp only [Bool.and_eq_true, Bool.not_eq_true'] at h
      simp [hsel, h.1, h.2]

/-- Witness for C2: with the select raising, an at-limit free-tier account
is still admitted, with reset at the next UTC midnight. -/
theorem quota_fails_open_on_persistence_error_witness :
    persistenceRaises ⟨true, false, false⟩ [⟨1, "u", 0, 10⟩] "u" "free" 0 = true ∧
    (check_and_update_api_usage ⟨true, false, false⟩ 5 [⟨1, "u", 0, 10⟩] "u" "free" 0).1 =
      (true, 86400) :=
  ⟨by decide,
   quota_fails_open_on_persistence_error ⟨true, false, false⟩ 5
     [⟨1, "u", 0, 10⟩] "u" "free" 0 (by decide)⟩

/-- Counterexample to claim C6: the quota increment is a read phase followed
by a separate commit phase (check_eq_read_then_commit shows the source is
exactly this composition), with no lock, transaction or compare-and-swap
between them.  In the interleaving where two calls for the same account and
day both run their read before either commit, starting from an empty table,
both calls are admitted yet the stored count ends at 1 and the table holds
two rows for the same (account, date) — 2 admitted calls, final count 1 —
whereas running the two calls back-to-back atomically ends at count 2. -/
theorem quota_race_counterexample :
    (commitPhase (readPhase [] "u" 0) 1 [] "u" "free" 0).1.1 = true ∧
    (commitPhase (readPhase [] "u" 0) 2
        (commitPhase (readPhase [] "u" 0) 1 [] "u" "free" 0).2 "u" "free" 0).1.1 = true ∧
    usageCount (commitPhase (readPhase [] "u" 0) 2
        (commitPhase (readPhase [] "u" 0) 1 [] "u" "free" 0).2 "u" "free" 0).2 "u" 0 = 1 ∧
    (selectUsage (commitPhase (readPhase [] "u" 0) 2
        (commitPhase (readPhase [] "u" 0) 1 [] "u" "free" 0).2 "u" "free" 0).2 "u" 0).length = 2 ∧
    usageCount (check_and_update_api_usage DBBehavior.ok 2
        (check_and_update_api_usage DBBehavior.ok 1 [] "u" "free" 0).2
        "u" "free" 0).2 "u" 0 = 2 := by
  decide

/-- Claim C6 as amended: under serialized (non-interleaved) execution each
admitted call increments the stored count for (account, today) by exactly
one and each denied call leaves it unchanged, so sequentially the final
count equals the number of admitted calls; the implementation offers no
exclusion between its read and its write, so concurrent interleavings can
lose updates and double-insert (quota_race_counterexample). -/
theorem quota_sequential_admit_increments (fid : Nat) (db : List UsageRow)
    (user tier : String) (now : Nat) :
    usageCount (check_and_update_api_usage DBBehavior.ok fid db user tier now).2
        user (dateOfNow now) =
      (if (check_and_update_api_usage DBBehavior.ok fid db user tier now).1.1 then
        usageCount db user (dateOfNow now) + 1
      else usageCount db user (dateOfNow now)) := by
  simp only [check_and_update_api_usage, DBBehavior.ok, Bool.false_eq_true,
    if_false]
  cases hsel : selectUsage db user (dateOfNow now) with
  | nil =>
    simp only [usageCount, selectUsage_append, hsel, List.nil_append]
    simp [selectUsage]
  | cons usage rest =>
    by_cases hg : gtLimit (usage.count + 1) (tierLimit tier)
    · simp [hg, usageCount, hsel]
    · simp only [hg, Bool.false_eq_true, if_false, if_true]
      simp only [usageCount, selectUsage_map_update, hsel, List.map_cons]
      simp

/-- Claim C7: format_time_until_reset agrees with the spec's countdown
rules everywhere, and on the spec's four sample inputs. -/
theorem format_countdown_conforms :
    (∀ s : Nat, format_time_until_reset s = format_reset_countdown_spec s) ∧
    format_time_until_reset 0 = "0 seconds" ∧
    format_time_until_reset 59 = "59 seconds" ∧
    format_time_until_reset 60 = "1 minutes, 0 seconds" ∧
    format_time_until_reset 3661 = "1 hours, 1 minutes" := by
  refine ⟨?_, by decide, by decide, by decide, by decide⟩
  intro s
  unfold format_time_until_reset format_reset_countdown_spec
  rcases Nat.lt_or_ge s 3600 with h | h
  · have h0 : s / 3600 = 0 := Nat.div_eq_of_lt h
    have hm : s % 3600 = s := Nat.mod_eq_of_lt h
    rcases Nat.lt_or_ge s 60 with h1 | h1
    · have hd0 : s / 60 = 0 := Nat.div_eq_of_lt h1
      have hm0 : s % 60 = s := Nat.mod_eq_of_lt h1
      simp [h0, hm, hd0, hm0, Nat.not_le.mpr h, Nat.not_le.mpr h1]
    · have hdpos : 0 < s / 60 := Nat.div_pos h1 (by norm_num)
      simp [h0, hm, Nat.not_le.mpr h, h1, hdpos]
  · have hpos : 0 < s / 3600 := Nat.div_pos h (by norm_num)
    simp [h, hpos]

/-- Claim C3: update_ips fails (503) exactly when no agent's fetch
succeeded with a non-empty list; on failure the 503 detail is built from
the concatenated per-agent warning list and the durable dataset is
untouched (zero writes); on success the merged dataset is persisted exactly
once. -/
theorem update_ips_failure_iff (fetch : String → FetchOutcome)
    (agents : List String) (file : Dataset) :
    ((update_ips fetch agents file).1.isFailure = true ↔
      ∀ a ∈ agents, successNonempty (fetch a) = false) ∧
    ((update_ips fetch agents file).1.isFailure = true →
      (update_ips fetch agents file).1 =
        .httpError503 (errorDetail (agents.filterMap (agentWarning fetch))) ∧
      (update_ips fetch agents file).2.1 = file ∧
      (update_ips fetch agents file).2.2 = 0) ∧
    ((update_ips fetch agents file).1.isFailure = false →
      (update_ips fetch agents file).2.1 = (runAgents fetch agents file).current ∧
      (update_ips fetch agents file).2.2 = 1) := by
  have hupd : (runAgents fetch agents file).updated =
      agents.any (fun a => successNonempty (fetch a)) := by
    simpa using foldl_processAgent_updated fetch agents ⟨file, false, []⟩
  have herr : (runAgents fetch agents file).errors =
      agents.filterMap (agentWarning fetch) := by
    simpa using foldl_processAgent_errors fetch agents ⟨file, false, []⟩
  simp only [update_ips]
  cases hst : (runAgents fetch agents file).updated with
  | true =>
    rw [hst] at hupd
    obtain ⟨a, ha, hgood⟩ := List.any_eq_true.mp hupd.symm
    simp only [hst, if_true, UpdateResponse.isFailure]
    refine ⟨?_, ?_, ?_⟩
    · constructor
      · intro hc; cases hc
      · intro hall
        rw [hall a ha] at hgood
        cases hgood
    · intro hc; cases hc
    · intro _; constructor <;> trivial
  | false =>
    have hany : agents.any (fun x => successNonempty (fetch x)) = false := by
      rw [← hupd, hst]
    simp only [hst, Bool.false_eq_true, if_false, UpdateResponse.isFailure]
    refine ⟨?_, ?_, ?_⟩
    · constructor
      · intro _ a ha
        by_contra hc
        have : agents.any (fun x => successNonempty (fetch x)) = true :=
          List.any_eq_true.mpr ⟨a, ha, by simpa using hc⟩
        rw [this] at hany
        cases hany
      · intro _; trivial
    · intro _
      refine ⟨by rw [herr], by trivial, by trivial⟩
    · intro hc; cases hc

/-- Witness for C3: three agents all erroring — the 503 carries the three
warnings, nothing is written and the file is unchanged; and one succeeding
agent — the merge is written exactly once. -/
theorem update_ips_failure_iff_witness :
    (update_ips (fun _ => FetchOutcome.httpStatusError "boom")
        ["searchbot", "chatgpt-user", "gptbot"]
        [("searchbot", ["1.0.0.0/24"])]).2.1 = [("searchbot", ["1.0.0.0/24"])] ∧
    (update_ips (fun _ => FetchOutcome.httpStatusError "boom")
        ["searchbot", "chatgpt-user", "gptbot"]
        [("searchbot", ["1.0.0.0/24"])]).2.2 = 0 ∧
    (update_ips (fun _ => FetchOutcome.success ["5.5.5.5/32"])
        ["gptbot"] []).2.2 = 1 :=
  ⟨((update_ips_failure_iff (fun _ => FetchOutcome.httpStatusError "boom")
      ["searchbot", "chatgpt-user", "gptbot"]
      [("searchbot", ["1.0.0.0/24"])]).2.1 (by decide)).2.1,
   ((update_ips_failure_iff (fun _ => FetchOutcome.httpStatusError "boom")
      ["searchbot", "chatgpt-user", "gptbot"]
      [("searchbot", ["1.0.0.0/24"])]).2.1 (by decide)).2.2,
   ((update_ips_failure_iff (fun _ => FetchOutcome.success ["5.5.5.5/32"])
      ["gptbot"] []).2.2 (by decide)).2⟩

/-- Claim C4: an agent whose fetch errored or extracted an empty list keeps
its pre-refresh entry in the merged dataset (never cleared or overwritten),
and its warning string is recorded in the errors list. -/
theorem refresh_keeps_stale_on_bad_fetch (fetch : String → FetchOutcome)
    (agents : List String) (file : Dataset) (a : String)
    (hmem : a ∈ agents) (hbad : successNonempty (fetch a) = false) :
    lookupEntry (runAgents fetch agents file).current a = lookupEntry file a ∧
    (agentWarning fetch a).isSome = true ∧
    (agentWarning fetch a).getD "" ∈ (runAgents fetch agents file).errors := by
  have herr : (runAgents fetch agents file).errors =
      agents.filterMap (agentWarning fetch) := by
    simpa using foldl_processAgent_errors fetch agents ⟨file, false, []⟩
  have hw : (agentWarning fetch a).isSome = true := by
    revert hbad
    unfold successNonempty agentWarning
    cases fetch a with
    | success ipList =>
      cases ipList with
      | nil => intro _; simp
      | cons x xs => intro hbad; simp at hbad
    | httpStatusError m => intro _; simp
    | jsonDecodeError m => intro _; simp
    | unexpectedError m => intro _; simp
  refine ⟨?_, hw, ?_⟩
  · simpa using foldl_processAgent_current_bad fetch a hbad agents ⟨file, false, []⟩
  · obtain ⟨w, hws⟩ := Option.isSome_iff_exists.mp hw
    rw [herr, hws]
    exact List.mem_filterMap.mpr ⟨a, hmem, by simp [hws]⟩

/-- Witness for C4: gptbot's fetch returns an HTTP error while searchbot
succeeds; gptbot keeps its old list and its warning is recorded. -/
theorem refresh_keeps_stale_on_bad_fetch_witness :
    lookupEntry (runAgents
        (fun a => if a == "gptbot" then FetchOutcome.httpStatusError "500"
          else FetchOutcome.success ["1.1.1.1/32"])
        ["searchbot", "gptbot"] [("gptbot", ["2.2.2.2/32"])]).current "gptbot" =
      lookupEntry [("gptbot", ["2.2.2.2/32"])] "gptbot" ∧
    (agentWarning
        (fun a => if a == "gptbot" then FetchOutcome.httpStatusError "500"
          else FetchOutcome.success ["1.1.1.1/32"]) "gptbot").isSome = true ∧
    (agentWarning
        (fun a => if a == "gptbot" then FetchOutcome.httpStatusError "500"
          else FetchOutcome.success ["1.1.1.1/32"]) "gptbot").getD "" ∈
      (runAgents
        (fun a => if a == "gptbot" then FetchOutcome.httpStatusError "500"
          else FetchOutcome.success ["1.1.1.1/32"])
        ["searchbot", "gptbot"] [("gptbot", ["2.2.2.2/32"])]).errors :=
  refresh_keeps_stale_on_bad_fetch
    (fun a => if a == "gptbot" then FetchOutcome.httpStatusError "500"
      else FetchOutcome.success ["1.1.1.1/32"])
    ["searchbot", "gptbot"] [("gptbot", ["2.2.2.2/32"])] "gptbot"
    (by decide) (by decide)

/-- Claim C5: per-agent outcomes are independent — after the loop, every
agent's entry is its own fetched list when its fetch succeeded non-empty
and its pre-refresh list otherwise, regardless of the other agents; and in
the 2-good-1-error scenario update_ips succeeds with exactly those two
entries replaced, exactly one warning string, and one persist. -/
theorem refresh_per_agent_independent :
    (∀ (fetch : String → FetchOutcome) (agents : List String)
      (file : Dataset) (a : String), a ∈ agents →
      lookupEntry (runAgents fetch agents file).current a =
        (if successNonempty (fetch a) then some (ipListOf (fetch a))
         else lookupEntry file a)) ∧
    update_ips
      (fun a => if a == "searchbot" then FetchOutcome.success ["1.0.0.0/24"]
        else if a == "chatgpt-user" then FetchOutcome.httpStatusError "Server error"
        else FetchOutcome.success ["2.0.0.0/24"])
      ["searchbot", "chatgpt-user", "gptbot"]
      [("searchbot", ["9.9.9.9/32"]), ("chatgpt-user", ["8.8.8.8/32"]), ("gptbot", [])] =
    (UpdateResponse.ok "IP data update completed with partial success"
        [("searchbot", ["1.0.0.0/24"]), ("chatgpt-user", ["8.8.8.8/32"]),
          ("gptbot", ["2.0.0.0/24"])]
        (some ["HTTP error occurred for chatgpt-user: Server error"]),
      [("searchbot", ["1.0.0.0/24"]), ("chatgpt-user", ["8.8.8.8/32"]),
        ("gptbot", ["2.0.0.0/24"])], 1) := by
  constructor
  · intro fetch agents file a hmem
    by_cases hg : successNonempty (fetch a)
    · rw [if_pos hg]
      exact foldl_processAgent_current_good fetch a hg agents ⟨file, false, []⟩ hmem
    · rw [if_neg hg]
      simpa using foldl_processAgent_current_bad fetch a
        (Bool.not_eq_true _ ▸ eq_false_of_ne_true hg) agents ⟨file, false, []⟩
  · decide

/-- Witness for C5: the general independence statement applied to a
single-agent run. -/
theorem refresh_per_agent_independent_witness :
    lookupEntry (runAgents (fun _ => FetchOutcome.success ["3.3.3.3/32"])
        ["gptbot"] []).current "gptbot" =
      (if successNonempty ((fun _ => FetchOutcome.success ["3.3.3.3/32"]) "gptbot")
       then some (ipListOf ((fun _ => FetchOutcome.success ["3.3.3.3/32"]) "gptbot"))
       else lookupEntry [] "gptbot") :=
  refresh_per_agent_independent.1 (fun _ => FetchOutcome.success ["3.3.3.3/32"])
    ["gptbot"] [] "gptbot" (by decide)

/-- Claim C8: get_bot_ips returns the 404 exactly when the requested name
is absent from the dataset's key set; a present key is returned as the
singleton mapping, even when its list is empty. -/
theorem get_bot_ips_notfound_iff (data : Dataset) (bot_type : String) :
    (get_bot_ips data bot_type = .notFound404 ↔
      bot_type ∉ data.map Prod.fst) ∧
    (∀ v, lookupEntry data bot_type = some v →
      get_bot_ips data bot_type = .ok [(bot_type, v)]) ∧
    get_bot_ips [("gptbot", [])] "gptbot" = .ok [("gptbot", [])] ∧
    get_bot_ips [("gptbot", [])] "unknownbot" = .notFound404 := by
  refine ⟨?_, ?_, by decide, by decide⟩
  · rw [← lookupEntry_eq_none_iff]
    unfold get_bot_ips
    cases h : lookupEntry data bot_type <;> simp
  · intro v hv
    unfold get_bot_ips
    rw [hv]

/-- Witness for C8: a present key with a non-empty list is returned as the
singleton mapping. -/
theorem get_bot_ips_notfound_iff_witness :
    get_bot_ips [("gptbot", ["4.4.4.4/32"])] "gptbot" =
      .ok [("gptbot", ["4.4.4.4/32"])] :=
  (get_bot_ips_notfound_iff [("gptbot", ["4.4.4.4/32"])] "gptbot").2.1
    ["4.4.4.4/32"] (by decide)

/-- Counterexample to claim C9: with one agent whose fetch succeeds with a
list identical to its stored list, the run still sets updated = true (and
re-persists), although no agent's list differs from its stored list — the
merged dataset equals the pre-refresh file. -/
theorem refresh_updated_despite_identical :
    (runAgents (fun _ => FetchOutcome.success ["1.2.3.4/32"]) ["gptbot"]
        [("gptbot", ["1.2.3.4/32"])]).updated = true ∧
    (runAgents (fun _ => FetchOutcome.success ["1.2.3.4/32"]) ["gptbot"]
        [("gptbot", ["1.2.3.4/32"])]).current = [("gptbot", ["1.2.3.4/32"])] ∧
    (update_ips (fun _ => FetchOutcome.success ["1.2.3.4/32"]) ["gptbot"]
        [("gptbot", ["1.2.3.4/32"])]).2.2 = 1 := by
  decide

/-- Claim C9 as amended: the run is marked updated = true iff at least one
agent's fetch succeeded with a non-empty list — whether or not that list
differs from the stored one; refreshing with upstream data identical to
current state still yields updated = true. -/
theorem refresh_updated_iff_nonempty_success (fetch : String → FetchOutcome)
    (agents : List String) (file : Dataset) :
    (runAgents fetch agents file).updated =
      agents.any (fun a => successNonempty (fetch a)) := by
  simpa using foldl_processAgent_updated fetch agents ⟨file, false, []⟩

/-- Claim C10: any tier whose lower-cased form is neither "free" nor
"basic" gets the float('inf') limit: quota admission never denies it (for
every table state and every persistence behavior), and the usage snapshot
reports its remaining requests as unbounded. -/
theorem unknown_tier_unlimited (tier : String)
    (h1 : lower tier ≠ "free") (h2 : lower tier ≠ "basic") :
    tierLimit tier = .infinite ∧
    (∀ (beh : DBBehavior) (fid : Nat) (db : List UsageRow) (user : String)
      (now : Nat),
      (check_and_update_api_usage beh fid db user tier now).1.1 = true) ∧
    (∀ (db : List UsageRow) (user : String) (now : Nat),
      (get_api_usage db user tier now).remaining_requests = .unbounded) := by
  have hlim : tierLimit tier = .infinite := by
    simp [tierLimit, h1, h2]
  refine ⟨hlim, ?_, ?_⟩
  · intro beh fid db user now
    unfold check_and_update_api_usage
    cases hb : beh.selectFails with
    | true => simp
    | false =>
      cases hsel : selectUsage db user (dateOfNow now) with
      | nil => cases beh.insertFails <;> simp [hsel]
      | cons usage rest =>
        simp only [hsel, hlim, gtLimit, Bool.false_eq_true, if_false]
        cases beh.updateFails <;> simp
  · intro db user now
    simp [get_api_usage, hlim, remainingOf]

/-- Witness for C10: a mixed-case unknown tier name with a huge stored
count is still admitted and reported unbounded. -/
theorem unknown_tier_unlimited_witness :
    tierLimit "UnLimited" = .infinite ∧
    (check_and_update_api_usage DBBehavior.ok 7 [⟨1, "u", 0, 1000000⟩]
      "u" "UnLimited" 0).1.1 = true ∧
    (get_api_usage [⟨1, "u", 0, 1000000⟩] "u" "UnLimited" 0).remaining_requests =
      .unbounded :=
  ⟨(unknown_tier_unlimited "UnLimited" (by decide) (by decide)).1,
   (unknown_tier_unlimited "UnLimited" (by decide) (by decide)).2.1
     DBBehavior.ok 7 [⟨1, "u", 0, 1000000⟩] "u" 0,
   (unknown_tier_unlimited "UnLimited" (by decide) (by decide)).2.2
     [⟨1, "u", 0, 1000000⟩] "u" 0⟩

end StopScraping
